import Mathlib

/-!
Shallow embedding of the `kasperisager/chromium` Go package.

The package supervises a headless Chromium process: it renders command-line
flags (`flag.go`), scans the process's stderr for structured diagnostic
records (`Scan`), and runs a start/stop lifecycle that races a filesystem
watcher on the data directory against watcher errors and diagnostic errors
(`chromium.go`).

Pure functions of the source become Lean functions; the stateful supervisor
becomes explicit state passing over a `Chromium` record, with the outcomes of
the external effects (temp-dir allocation, pipe acquisition, watch
registration, process start, and the stream of readiness-race events)
supplied as an explicit environment.
-/

namespace chromium

/-! ## Flag model (`flag.go`) -/

/-- The dynamic type of a Go `interface{}` flag value, restricted to the
value types the package actually constructs, plus `other` for a value of any
type outside that set; `other` carries the string that Go's default `%v`
verb would produce for it. -/
inductive Value where
  | bool (b : Bool)
  | str (s : String)
  | int (n : Int)
  | ip (a b c d : Nat)
  | other (defaultVerb : String)
deriving DecidableEq, Repr

/-- Go: `type Flag struct { Key string; Value interface{} }`. -/
structure Flag where
  key : String
  value : Value
deriving DecidableEq, Repr

/-- Go's `%v` formatting of a flag value: integers decimal, `net.IP` dotted,
strings verbatim, booleans `true`/`false`. -/
def Value.format : Value → String
  | .bool b => if b then "true" else "false"
  | .str s => s
  | .int n => toString n
  | .ip a b c d =>
      toString a ++ "." ++ toString b ++ "." ++ toString c ++ "." ++ toString d
  | .other s => s

/-- Go: `func (flag Flag) String() string`: a `bool` value yields `--key` when
true and falls through to `return ""` when false; every other value is
formatted by the `default` case as `--key=%v`. (Named `render` here because
`Flag.String` would shadow the `String` type inside the `Flag` namespace.) -/
def Flag.render (f : Flag) : String :=
  match f.value with
  | .bool b => if b then "--" ++ f.key else ""
  | v => "--" ++ f.key ++ "=" ++ v.format

/-- Go: `func Address(address net.IP) Flag`. -/
def Address (a b c d : Nat) : Flag :=
  ⟨"remote-debugging-address", .ip a b c d⟩

/-- Go: `func Port(port uint16) Flag`. -/
def Port (port : Nat) : Flag :=
  ⟨"remote-debugging-port", .int port⟩

/-- Go: `func Data(directory string) Flag`. -/
def Data (directory : String) : Flag :=
  ⟨"user-data-dir", .str directory⟩

/-- Go: `func Size(width int, height int) Flag`: the value is the pre-formatted
string `fmt.Sprintf("%v,%v", width, height)`. -/
def Size (width : Int) (height : Int) : Flag :=
  ⟨"window-size", .str (toString width ++ "," ++ toString height)⟩

/-! ## The diagnostic-line pattern

`errFormat = regexp.MustCompile("\\[.*:(.+)\\((\\d+)\\)\\]\\s+(.+)")`.

Go `regexp` (RE2) chooses, for an unanchored `FindStringSubmatch`, the match
with the leftmost starting position and, among matches starting there, the
one a backtracking search would find first (Perl-style leftmost-first, with
greedy quantifiers). The functions below implement exactly that search for
this fixed pattern, character class by character class:
`.` is any character except newline, `\s` is `[\t\n\f\r ]`, `\d` is
`[0-9]`. -/

/-- The `.` metacharacter: any character except a newline. -/
def isDot (c : Char) : Bool := c ≠ '\n'

/-- The `\s` class of Go regexp: tab, newline, form feed, carriage return,
space. -/
def isGoSpace (c : Char) : Bool :=
  c = ' ' || c = '\t' || c = '\n' || c = '\x0c' || c = '\r'

/-- The `\d` class: an ASCII decimal digit. -/
def isDigitCh (c : Char) : Bool := '0' ≤ c && c ≤ '9'

/-- Matches the final `(.+)` of the pattern: greedy, at least one character,
need not reach the end of the input. Returns the capture. -/
def matchDotPlusEnd (cs : List Char) : Option (List Char) :=
  match cs with
  | [] => none
  | c :: _ => if isDot c then some (cs.takeWhile isDot) else none

/-- Matches `\s*(.+)` greedily: consuming one more space is preferred, and on
failure the `\s*` backtracks and the `(.+)` starts here. Returns the message
capture. -/
def matchSpaceStarMsg : List Char → Option (List Char)
  | [] => none
  | c :: cs =>
    if isGoSpace c then
      match matchSpaceStarMsg cs with
      | some r => some r
      | none => matchDotPlusEnd (c :: cs)
    else matchDotPlusEnd (c :: cs)

/-- Matches `\s+(.+)`: one mandatory space character, then `\s*(.+)`. -/
def matchSpacePlusMsg : List Char → Option (List Char)
  | [] => none
  | c :: cs => if isGoSpace c then matchSpaceStarMsg cs else none

/-- Matches `(\d+)\)\]\s+(.+)` directly after the literal `(`. A shorter
digit run would leave a digit (never `)`) as the next character, so the
greedy maximal run is the only backtracking candidate. Returns the line
digits and the message. -/
def matchAfterParen (cs : List Char) : Option (List Char × List Char) :=
  let ds := cs.takeWhile isDigitCh
  match cs.dropWhile isDigitCh with
  | ')' :: ']' :: rest =>
    if ds = [] then none
    else
      match matchSpacePlusMsg rest with
      | some msg => some (ds, msg)
      | none => none
  | _ => none

/-- Matches `.*\((\d+)\)\]\s+(.+)`: the greedy `.*` prefers to consume the
current character, backtracking to treat it as the literal `(`. Returns the
characters the `.*` consumed together with the two remaining captures. -/
def matchDotStarTail : List Char → Option (List Char × List Char × List Char)
  | [] => none
  | c :: cs =>
    match (if isDot c then matchDotStarTail cs else none) with
    | some (g, ds, msg) => some (c :: g, ds, msg)
    | none =>
      if c = '(' then
        match matchAfterParen cs with
        | some (ds, msg) => some ([], ds, msg)
        | none => none
      else none

/-- Matches `(.+)\((\d+)\)\]\s+(.+)`: the file capture is one mandatory `.`
character followed by the `.*` of `matchDotStarTail`. Returns the file
capture, the line digits, and the message. -/
def matchFileTail : List Char → Option (List Char × List Char × List Char)
  | [] => none
  | c :: cs =>
    if isDot c then
      match matchDotStarTail cs with
      | some (g, ds, msg) => some (c :: g, ds, msg)
      | none => none
    else none

/-- Matches `.*:(.+)\((\d+)\)\]\s+(.+)` after the opening bracket: the
greedy `.*` prefers consuming the current character, backtracking to treat
it as the literal `:` — so the rightmost viable colon wins. -/
def matchAfterBracket : List Char → Option (List Char × List Char × List Char)
  | [] => none
  | c :: cs =>
    match (if isDot c then matchAfterBracket cs else none) with
    | some r => some r
    | none => if c = ':' then matchFileTail cs else none

/-- Attempts the whole pattern at the current position: the leading `\[`
must match here. -/
def matchAt : List Char → Option (List Char × List Char × List Char)
  | [] => none
  | c :: cs => if c = '[' then matchAfterBracket cs else none

/-- Go: `errFormat.FindStringSubmatch`: the leftmost starting position wins.
Returns the three captures (file, line digits, message), or `none` — Go's
nil slice — when no match exists anywhere in the line. -/
def findStringSubmatch : List Char → Option (List Char × List Char × List Char)
  | [] => none
  | c :: cs =>
    match matchAt (c :: cs) with
    | some r => some r
    | none => findStringSubmatch cs

/-! ## The diagnostic scanner (`Scan`) -/

/-- Go: `type Error struct { file string; line int; msg string }`. -/
structure Error where
  file : String
  line : Int
  msg : String
deriving DecidableEq, Repr

/-- The digit characters read as a decimal natural number. -/
def digitsToNat (cs : List Char) : Nat :=
  cs.foldl (fun acc c => acc * 10 + (c.toNat - '0'.toNat)) 0

/-- Go: `strconv.ParseInt(s, 10, 32)` applied to a nonempty digit string with the
error discarded (`line, _ := ...`): on range overflow Go returns the clamped
maximum `int32` alongside the ignored error. -/
def parseInt32Clamped (ds : List Char) : Int :=
  if digitsToNat ds ≤ 2147483647 then (digitsToNat ds : Int) else 2147483647

/-- A value pushed onto the `out chan<- error`: either a structured
`*Error` record or the raw scanner error forwarded at end of stream. -/
inductive ScanEvent where
  | record (e : Error)
  | raw (e : String)
deriving DecidableEq, Repr

/-- The observable outcome of `Scan`: the events pushed onto the channel, in
order, and whether the goroutine panicked partway. -/
structure ScanOutput where
  events : List ScanEvent
  panicked : Bool
deriving DecidableEq, Repr

/-- Go: `func Scan(in io.Reader, out chan<- error)`. The input stream is the
list of lines `bufio.Scanner` delivers plus the optional final read error
(`scanner.Err()`). For each line the code runs
`parts := errFormat.FindStringSubmatch(...)` and unconditionally indexes
`parts[2]`: when the line does not match, `parts` is Go's nil slice and the
index expression panics (index out of range), ending the goroutine with no
further output. -/
def Scan : List String → Option String → ScanOutput
  | [], none => ⟨[], false⟩
  | [], some e => ⟨[.raw e], false⟩
  | l :: rest, readErr =>
    match findStringSubmatch l.data with
    | none => ⟨[], true⟩
    | some (f, ds, msg) =>
      let tail := Scan rest readErr
      ⟨.record ⟨String.mk f, parseInt32Clamped ds, String.mk msg⟩ :: tail.events,
       tail.panicked⟩

/-- The two failure kinds of `strconv.ParseUint`: `ErrSyntax` (`invalid`)
and `ErrRange` (`outOfRange`). -/
inductive NumErr where
  | invalid
  | outOfRange
deriving DecidableEq, Repr

/-- Go: `strconv.ParseUint(s, 10, 16)`: syntax error unless the whole string is
a nonempty run of decimal digits (no sign, no whitespace, no second line),
range error when the value exceeds the 16-bit maximum 65535. -/
def parseUint16 (s : String) : Except NumErr Nat :=
  if s.data = [] then .error .invalid
  else if s.data.all isDigitCh then
    if digitsToNat s.data ≤ 65535 then .ok (digitsToNat s.data)
    else .error .outOfRange
  else .error .invalid

/-! ## The process supervisor (`chromium.go`)

The `chromium` struct carries `path`, `flags`, `data` and `cmd`. The `cmd`
field is modelled as `Option Cmd`, where a `Cmd` records the argument list
`exec.Command` was given and whether `cmd.Start()` has succeeded. The error
channel is not part of the mutable record; the diagnostic errors the
supervisor drains from it during startup arrive as race events. -/

/-- An `*exec.Cmd` handle: the rendered argument list and whether the OS
process was successfully started. -/
structure Cmd where
  args : List String
  started : Bool
deriving DecidableEq, Repr

/-- The mutable fields of the `chromium` struct. -/
structure Chromium where
  path : String
  flags : List Flag
  data : String
  cmd : Option Cmd
deriving DecidableEq, Repr

/-- Go: `func New(path string, flags ...Flag) Chromium`. -/
def New (path : String) (flags : List Flag) : Chromium :=
  ⟨path, flags, "", none⟩

/-- Go: `func (chromium *chromium) Flag(key string)`: the value of the first
flag with the given key, with the `bool` of the Go return pair modelled by
`Option`. -/
def flagValue : List Flag → String → Option Value
  | [], _ => none
  | f :: fs, k => if f.key = k then some f.value else flagValue fs k

/-- Method form of `flagValue` on the record. -/
def Chromium.Flag (c : Chromium) (key : String) : Option Value :=
  flagValue c.flags key

/-- The errors `Start`, `Stop` and `Wait` can return, tagged by the call
site that produced them; the string payload carries the underlying OS or
watcher error text. -/
inductive GoError where
  | processRunning
  | processNotRunning
  | tempDirFail (msg : String)
  | pipeFail (msg : String)
  | watchAddFail (msg : String)
  | procStartFail (msg : String)
  | readFileFail (msg : String)
  | parse (e : NumErr)
  | watch (msg : String)
  | diag (msg : String)
  | killFail (msg : String)
  | waitFail (msg : String)
deriving DecidableEq, Repr

/-- An event arriving during the blocking `select` of `Start`: a filesystem
event from `poller.Event` (carrying the event name and the result of
`ioutil.ReadFile(event.Path)`), a watcher error from `poller.Error`, or a
diagnostic error from `chromium.errs`. -/
inductive RaceEvent where
  | fs (name : String) (readResult : Except String String)
  | watch (e : String)
  | diag (e : String)
deriving Repr

/-- The outcomes of the external effects `Start` performs, supplied as an
explicit environment: `ioutil.TempDir`, `cmd.StderrPipe`, `poller.Add`,
`cmd.Start`, and the stream of events the `select` loop receives. -/
structure StartEnv where
  tempDir : Except String String
  stderrPipe : Except String Unit
  watchAdd : Except String Unit
  procStart : Except String Unit
  events : List RaceEvent
deriving Repr

/-- How a `Start` invocation ends: returning `(port, nil)`, returning
`(0, err)`, blocking forever in the `select` (no event ever arrives), or a
Go runtime panic (the unchecked `data.(string)` type assertion). -/
inductive StartOut where
  | port (p : Nat)
  | fail (e : GoError)
  | hang
  | panicked
deriving DecidableEq, Repr

/-- The observable outcome of `Start`: its return value, the record as left
behind, and whether the OS process spawned by this call is still running
when `Start` returns (the code contains no kill on any of its error
paths). -/
structure StartResult where
  out : StartOut
  state : Chromium
  procLive : Bool
deriving DecidableEq, Repr

/-- The `for { select { ... } }` loop of `Start` (`chromium.go:135-160`):
an event named anything other than `DevToolsActivePort` is skipped
(`continue`); the marker event reads the file and parses its whole content
with `strconv.ParseUint(string(file), 10, 16)`; a watcher or diagnostic
error returns immediately. The record is not mutated, and the spawned
process is never killed. -/
def raceLoop (c : Chromium) : List RaceEvent → StartResult
  | [] => ⟨.hang, c, true⟩
  | .fs name readResult :: rest =>
    if name ≠ "DevToolsActivePort" then raceLoop c rest
    else
      match readResult with
      | .error e => ⟨.fail (.readFileFail e), c, true⟩
      | .ok content =>
        match parseUint16 content with
        | .error e => ⟨.fail (.parse e), c, true⟩
        | .ok p => ⟨.port p, c, true⟩
  | .watch e :: _ => ⟨.fail (.watch e), c, true⟩
  | .diag e :: _ => ⟨.fail (.diag e), c, true⟩

/-- The three flags `Start` appends before anything else
(`chromium.go:78-82`). -/
def mandatoryFlags : List Flag :=
  [⟨"headless", .bool true⟩, ⟨"disable-gpu", .bool true⟩, ⟨"no-sandbox", .bool true⟩]

/-- Go: `Start` from the default injection onward (`chromium.go:97-160`):
append `remote-debugging-address` and `remote-debugging-port` defaults when
absent, render the argument list, create the command handle
(`exec.Command`), then acquire the stderr pipe, register the watch, start
the process, and enter the race. Note that the handle is recorded on the
struct before the three fallible steps, and none of their error paths
clears it. -/
def Chromium.startAfterData (c : Chromium) (env : StartEnv) : StartResult :=
  let c :=
    if (flagValue c.flags "remote-debugging-address").isSome then c
    else { c with flags := c.flags ++ [⟨"remote-debugging-address", .ip 127 0 0 1⟩] }
  let c :=
    if (flagValue c.flags "remote-debugging-port").isSome then c
    else { c with flags := c.flags ++ [⟨"remote-debugging-port", .int 0⟩] }
  let args := c.flags.map Flag.render
  let c := { c with cmd := some ⟨args, false⟩ }
  match env.stderrPipe with
  | .error e => ⟨.fail (.pipeFail e), c, false⟩
  | .ok _ =>
    match env.watchAdd with
    | .error e => ⟨.fail (.watchAddFail e), c, false⟩
    | .ok _ =>
      match env.procStart with
      | .error e => ⟨.fail (.procStartFail e), c, false⟩
      | .ok _ => raceLoop { c with cmd := some ⟨args, true⟩ } env.events

/-- Go: `func (chromium *chromium) Start() (uint16, error)`
(`chromium.go:73-161`): a recorded handle short-circuits to
`ErrProcessRunning`; otherwise the mandatory flags are appended to the
record's flag list, the data directory comes from a caller-supplied
`user-data-dir` flag (via the unchecked type assertion `data.(string)`) or
from a fresh temp directory whose flag is also appended to the record, and
control continues in `startAfterData`. -/
def Chromium.Start (c : Chromium) (env : StartEnv) : StartResult :=
  match c.cmd with
  | some _ => ⟨.fail .processRunning, c, false⟩
  | none =>
    let c1 : Chromium := { c with flags := c.flags ++ mandatoryFlags }
    match c1.Flag "user-data-dir" with
    | some v =>
      match v with
      | .str s => Chromium.startAfterData { c1 with data := s } env
      | _ => ⟨.panicked, c1, false⟩
    | none =>
      match env.tempDir with
      | .error e => ⟨.fail (.tempDirFail e), c1, false⟩
      | .ok d =>
        Chromium.startAfterData
          { c1 with flags := c1.flags ++ [⟨"user-data-dir", .str d⟩], data := d } env

/-- Go: `func (chromium *chromium) Cleanup()` (`chromium.go:191-198`): remove
the data directory when non-empty, then clear `cmd` and `data`. Returns the
updated record and the directory removed, if any. -/
def Chromium.Cleanup (c : Chromium) : Chromium × Option String :=
  ({ c with cmd := none, data := "" },
   if c.data = "" then none else some c.data)

/-- The observable outcome of `Stop` or `Wait`: the returned error (if
any), the record as left behind, and the directory `Cleanup` removed (if
any). -/
structure StopResult where
  err : Option GoError
  state : Chromium
  removedDir : Option String
deriving DecidableEq, Repr

/-- Go: `func (chromium *chromium) Stop() error` (`chromium.go:163-175`): with
no handle, return `ErrProcessNotRunning` untouched; otherwise `Cleanup` is
deferred — it runs whether or not `cmd.Process.Kill()` fails — and the kill
error, if any, is the returned value. -/
def Chromium.Stop (c : Chromium) (kill : Except String Unit) : StopResult :=
  match c.cmd with
  | none => ⟨some .processNotRunning, c, none⟩
  | some _ =>
    let cleaned := c.Cleanup
    match kill with
    | .error e => ⟨some (.killFail e), cleaned.1, cleaned.2⟩
    | .ok _ => ⟨none, cleaned.1, cleaned.2⟩

/-- Go: `func (chromium *chromium) Wait() error` (`chromium.go:177-189`): same
shape as `Stop`, with `cmd.Wait()` in place of the kill. -/
def Chromium.Wait (c : Chromium) (waitResult : Except String Unit) : StopResult :=
  match c.cmd with
  | none => ⟨some .processNotRunning, c, none⟩
  | some _ =>
    let cleaned := c.Cleanup
    match waitResult with
    | .error e => ⟨some (.waitFail e), cleaned.1, cleaned.2⟩
    | .ok _ => ⟨none, cleaned.1, cleaned.2⟩

/-- A record as `New` leaves it: no flags, no data directory, no handle. -/
def freshChromium : Chromium := New "google-chrome" []

/-- An environment in which every setup step succeeds: the temp directory
is `d` and the race receives `events`. -/
def okEnv (d : String) (events : List RaceEvent) : StartEnv :=
  ⟨.ok d, .ok (), .ok (), .ok (), events⟩

/-- The defaults `Start` injects after the mandatory flags, each only when
the caller's flag list lacks the key: the data directory, the loopback
debugging address, and the unassigned debugging port. -/
def startDefaults (fl : List Flag) (d : String) : List Flag :=
  (match flagValue fl "user-data-dir" with
   | some _ => []
   | none => [⟨"user-data-dir", .str d⟩]) ++
  (match flagValue fl "remote-debugging-address" with
   | some _ => []
   | none => [⟨"remote-debugging-address", .ip 127 0 0 1⟩]) ++
  (match flagValue fl "remote-debugging-port" with
   | some _ => []
   | none => [⟨"remote-debugging-port", .int 0⟩])

/-! ## Helper lemmas -/

/-- Looking a key up in a concatenation: the first list wins when it has the
key. -/
theorem flagValue_append (a b : List Flag) (k : String) :
    flagValue (a ++ b) k =
      match flagValue a k with
      | some v => some v
      | none => flagValue b k := by
  induction a with
  | nil => rfl
  | cons f fs ih =>
    by_cases h : f.key = k
    · simp [flagValue, h]
    · simp [flagValue, h, ih]

/-- The select loop never mutates the record. -/
theorem raceLoop_state (c : Chromium) (ev : List RaceEvent) :
    (raceLoop c ev).state = c := by
  induction ev with
  | nil => rfl
  | cons e rest ih =>
    cases e with
    | fs name readResult =>
      by_cases h : name = "DevToolsActivePort"
      · cases readResult with
        | error e => simp [raceLoop, h]
        | ok content =>
          cases hp : parseUint16 content <;> simp [raceLoop, h, hp]
      · simpa [raceLoop, h] using ih
    | watch e => rfl
    | diag e => rfl

/-- A marker-file event whose content parses delivers the parsed port. -/
theorem raceLoop_marker_ok (c : Chromium) (s : String) (rest : List RaceEvent)
    (n : Nat) (hp : parseUint16 s = .ok n) :
    raceLoop c (.fs "DevToolsActivePort" (.ok s) :: rest) = ⟨.port n, c, true⟩ := by
  simp [raceLoop, hp]

/-- A marker-file event whose content fails to parse makes `Start` return
the parse error. -/
theorem raceLoop_marker_fail (c : Chromium) (s : String) (rest : List RaceEvent)
    (e : NumErr) (hp : parseUint16 s = .error e) :
    raceLoop c (.fs "DevToolsActivePort" (.ok s) :: rest)
      = ⟨.fail (.parse e), c, true⟩ := by
  simp [raceLoop, hp]

/-- A string containing a character outside `[0-9]` is a `ParseUint` syntax
error. -/
theorem parseUint16_not_all_digits (t : String)
    (ht : t.data.all isDigitCh = false) :
    parseUint16 t = .error .invalid := by
  unfold parseUint16
  have hne : ¬t.data = [] := by
    intro h
    rw [h] at ht
    simp at ht
  rw [if_neg hne, ht]
  simp

/-- With pipe, watch and process start all succeeding, `startAfterData`
leaves the handle recording the rendered flag list extended by the
injected address and port defaults. -/
theorem startAfterData_cmd (c : Chromium) (td : Except String String)
    (ev : List RaceEvent) :
    (Chromium.startAfterData c ⟨td, .ok (), .ok (), .ok (), ev⟩).state.cmd
      = some ⟨(c.flags
          ++ (match flagValue c.flags "remote-debugging-address" with
              | some _ => []
              | none => [⟨"remote-debugging-address", .ip 127 0 0 1⟩])
          ++ (match flagValue c.flags "remote-debugging-port" with
              | some _ => []
              | none => [⟨"remote-debugging-port", .int 0⟩])).map Flag.render,
        true⟩ := by
  unfold Chromium.startAfterData
  cases ha : flagValue c.flags "remote-debugging-address" <;>
    cases hp : flagValue c.flags "remote-debugging-port" <;>
      simp [ha, hp, flagValue_append, flagValue, raceLoop_state]

/-! ## The claims -/

/-- Claim C8: on the input line `[ERROR:file.cc(42)] boom` the scanner
emits exactly one record, with file `file.cc`, line 42 and message `boom`,
onto its output channel. -/
theorem scan_error_line :
    Scan ["[ERROR:file.cc(42)] boom"] none
      = ⟨[.record ⟨"file.cc", 42, "boom"⟩], false⟩ := by
  rfl

/-- Claim C1 (the code contradicts it): on a line that does not match the
diagnostic pattern — here `hello`, which has no bracket at all — `Scan`
does not drop the line and continue; it evaluates `parts[2]` on the nil
result of `FindStringSubmatch` and panics with an index-out-of-range error,
ending the goroutine with no output at all (the trailing read-error forward
is never reached either). -/
theorem scan_nonmatching_line_panics :
    Scan ["hello"] (some "later read error") = ⟨[], true⟩
  ∧ Scan ["[ERROR:file.cc(42)] boom", "hello"] none
      = ⟨[.record ⟨"file.cc", 42, "boom"⟩], true⟩ := by
  exact ⟨rfl, rfl⟩

/-- Claim C9: rendering a boolean-true flag gives exactly `--key`;
boolean-false gives the empty string; every non-boolean value gives
`--key=<formatted-value>`, with integers decimal, IP addresses dotted, and
a size flag as `W,H`. -/
theorem flag_render_cases (key : String) :
    Flag.render ⟨key, .bool true⟩ = "--" ++ key
  ∧ Flag.render ⟨key, .bool false⟩ = ""
  ∧ (∀ v : Value, (∀ b : Bool, v ≠ .bool b) →
      Flag.render ⟨key, v⟩ = "--" ++ key ++ "=" ++ Value.format v)
  ∧ (∀ n : Int, Value.format (.int n) = toString n)
  ∧ (∀ a b c d : Nat, Value.format (.ip a b c d)
      = toString a ++ "." ++ toString b ++ "." ++ toString c ++ "." ++ toString d)
  ∧ (∀ w h : Int, Flag.render (Size w h)
      = "--window-size=" ++ (toString w ++ "," ++ toString h)) := by
  refine ⟨rfl, rfl, ?_, fun n => rfl, fun a b c d => rfl, fun w h => rfl⟩
  intro v hv
  cases v with
  | bool b => exact absurd rfl (hv b)
  | str s => rfl
  | int n => rfl
  | ip a b c d => rfl
  | other s => rfl

/-- Witness for C9 at concrete inputs. -/
theorem flag_render_cases_witness :
    Flag.render ⟨"headless", .bool true⟩ = "--headless"
  ∧ Flag.render ⟨"window-size", .str "1920,1080"⟩ = "--window-size=1920,1080" := by
  refine ⟨(flag_render_cases "headless").1, ?_⟩
  have h := (flag_render_cases "window-size").2.2.1 (.str "1920,1080")
    (fun b hb => by cases hb)
  exact h

/-- Counterexample to claim C10: a flag whose value has a type outside the
enumerated set — modelled by `Value.other`, carrying Go's default `%v`
formatting of such a value — does not fail with any `UnsupportedValueType`
error (no such error exists anywhere in the package); the `default` case of
the type switch formats it like any other non-boolean value. -/
theorem unsupported_type_renders_counterexample :
    Flag.render ⟨"custom-flag", .other "3.5"⟩ = "--custom-flag=3.5"
  ∧ Flag.render ⟨"custom-flag", .other "3.5"⟩ ≠ "" := by
  exact ⟨rfl, by decide⟩

/-- Claim C10 as amended: `render` is total over all value types; a value
of a type outside the enumerated set does not fail but is formatted by the
default `%v` verb, producing `--key=<formatted-value>`. -/
theorem render_total_default_verb (key s : String) :
    Flag.render ⟨key, .other s⟩ = "--" ++ key ++ "=" ++ s := rfl

/-- Counterexample to claim C2: a marker file whose first line is the valid
in-range port `9222` but which carries a second line — the shape Chromium's
`DevToolsActivePort` file actually has, port then browser target path —
does not make `Start` succeed with 9222: `ParseUint` is applied to the
whole content and `Start` returns the syntax error. -/
theorem marker_file_second_line_counterexample :
    (Chromium.Start freshChromium
        (okEnv "/tmp/chromium-1"
          [.fs "DevToolsActivePort" (.ok "9222\n/devtools/browser/a")])).out
      = .fail (.parse .invalid)
  ∧ (Chromium.Start freshChromium
        (okEnv "/tmp/chromium-1"
          [.fs "DevToolsActivePort" (.ok "9222\n/devtools/browser/a")])).out
      ≠ .port 9222 := by
  exact ⟨rfl, by decide⟩

/-- Claim C2 as amended: on a `DevToolsActivePort` filesystem event the
supervisor reads the file and parses its ENTIRE content as the decimal port
number; `Start` succeeds with the port exactly when the whole content is a
nonempty digit string in 16-bit range, and any content with a character
outside the digits — a second line included — makes `Start` return a parse
error instead. -/
theorem marker_file_whole_content (s : String)
    (h1 : s.data ≠ []) (h2 : s.data.all isDigitCh = true)
    (h3 : digitsToNat s.data ≤ 65535) :
    (Chromium.Start freshChromium
        (okEnv "/tmp/chromium-1" [.fs "DevToolsActivePort" (.ok s)])).out
      = .port (digitsToNat s.data)
  ∧ ∀ t : String, t.data.all isDigitCh = false →
      (Chromium.Start freshChromium
          (okEnv "/tmp/chromium-1" [.fs "DevToolsActivePort" (.ok t)])).out
        = .fail (.parse .invalid) := by
  constructor
  · have hp : parseUint16 s = .ok (digitsToNat s.data) := by
      unfold parseUint16
      rw [if_neg h1, if_pos h2, if_pos h3]
    exact (congrArg StartResult.out (raceLoop_marker_ok _ s [] _ hp)).trans rfl
  · intro t ht
    have hp := parseUint16_not_all_digits t ht
    exact (congrArg StartResult.out (raceLoop_marker_fail _ t [] _ hp)).trans rfl

/-- Witness for the amended C2 at concrete marker contents. -/
theorem marker_file_whole_content_witness :
    (Chromium.Start freshChromium
        (okEnv "/tmp/chromium-1" [.fs "DevToolsActivePort" (.ok "9222")])).out
      = .port 9222
  ∧ (Chromium.Start freshChromium
        (okEnv "/tmp/chromium-1"
          [.fs "DevToolsActivePort" (.ok "9222\nsecond")])).out
      = .fail (.parse .invalid) := by
  have h := marker_file_whole_content "9222" (by decide) (by decide) (by decide)
  exact ⟨h.1.trans (by decide), h.2 "9222\nsecond" (by decide)⟩

/-- Claim C3 (the code contradicts it): when the readiness race delivers a
watcher error after the process has been spawned, `Start` returns that
error but the command handle stays recorded on the record and the spawned
OS process is left running — no error path of `Start` kills it or clears
`cmd`. The same handle leak occurs when stderr-pipe acquisition fails right
after `exec.Command` records the handle. -/
theorem start_race_error_leaves_process :
    (Chromium.Start freshChromium (okEnv "/tmp/chromium-1" [.watch "watch failure"])).out
      = .fail (.watch "watch failure")
  ∧ (Chromium.Start freshChromium
        (okEnv "/tmp/chromium-1" [.watch "watch failure"])).state.cmd ≠ none
  ∧ (Chromium.Start freshChromium
        (okEnv "/tmp/chromium-1" [.watch "watch failure"])).procLive = true
  ∧ (Chromium.Start freshChromium
        ⟨.ok "/tmp/chromium-1", .error "pipe fail", .ok (), .ok (), []⟩).state.cmd
      ≠ none := by
  exact ⟨rfl, by decide, rfl, by decide⟩

/-- Counterexample to claim C4: starting a fresh record with no caller
flags, the final argument list places the three mandatory safety flags
FIRST, and the supervisor-injected defaults (`user-data-dir`,
`remote-debugging-address`, `remote-debugging-port`) after them — so the
trailing three entries are not the mandatory flags. -/
theorem mandatory_flags_not_last_counterexample :
    ((Chromium.Start freshChromium
        (okEnv "/tmp/chromium-1" [.fs "DevToolsActivePort" (.ok "9222")])).state.cmd
      = some ⟨["--headless", "--disable-gpu", "--no-sandbox",
               "--user-data-dir=/tmp/chromium-1",
               "--remote-debugging-address=127.0.0.1",
               "--remote-debugging-port=0"], true⟩)
  ∧ List.drop 3 ["--headless", "--disable-gpu", "--no-sandbox",
        "--user-data-dir=/tmp/chromium-1",
        "--remote-debugging-address=127.0.0.1",
        "--remote-debugging-port=0"]
      ≠ ["--headless", "--disable-gpu", "--no-sandbox"] := by
  exact ⟨rfl, by decide⟩

/-- Claim C4 as amended: for every caller flag list, the final argument
list is the caller's flags, then the mandatory safety flags in the order
headless, disable-gpu, no-sandbox, then the supervisor-injected defaults
(each only when its key is absent from the caller's flags), in the order
user-data-dir, remote-debugging-address, remote-debugging-port. -/
theorem mandatory_flags_after_caller (fl : List Flag) (p d : String)
    (ev : List RaceEvent)
    (hud : ∀ v, flagValue fl "user-data-dir" = some v → ∃ s, v = Value.str s) :
    ∃ a, (Chromium.Start ⟨p, fl, "", none⟩
          ⟨.ok d, .ok (), .ok (), .ok (), ev⟩).state.cmd
        = some ⟨a, true⟩
      ∧ a = (fl ++ mandatoryFlags ++ startDefaults fl d).map Flag.render := by
  refine ⟨(fl ++ mandatoryFlags ++ startDefaults fl d).map Flag.render, ?_, rfl⟩
  have hm : flagValue (fl ++ mandatoryFlags) "user-data-dir"
      = flagValue fl "user-data-dir" := by
    rw [flagValue_append]
    cases flagValue fl "user-data-dir" <;> simp [flagValue, mandatoryFlags]
  have ha1 : flagValue (fl ++ mandatoryFlags) "remote-debugging-address"
      = flagValue fl "remote-debugging-address" := by
    rw [flagValue_append]
    cases flagValue fl "remote-debugging-address" <;> simp [flagValue, mandatoryFlags]
  have hp1 : flagValue (fl ++ mandatoryFlags) "remote-debugging-port"
      = flagValue fl "remote-debugging-port" := by
    rw [flagValue_append]
    cases flagValue fl "remote-debugging-port" <;> simp [flagValue, mandatoryFlags]
  cases hud2 : flagValue fl "user-data-dir" with
  | some v =>
    obtain ⟨s, rfl⟩ := hud v hud2
    simp only [Chromium.Start, Chromium.Flag, hm, hud2, startAfterData_cmd]
    simp [ha1, hp1, startDefaults, hud2, List.append_assoc]
  | none =>
    have ha2 : flagValue (fl ++ (mandatoryFlags ++ [(⟨"user-data-dir", .str d⟩ : Flag)]))
        "remote-debugging-address" = flagValue fl "remote-debugging-address" := by
      rw [flagValue_append]
      cases flagValue fl "remote-debugging-address" <;> simp [flagValue, mandatoryFlags]
    have hp2 : flagValue (fl ++ (mandatoryFlags ++ [(⟨"user-data-dir", .str d⟩ : Flag)]))
        "remote-debugging-port" = flagValue fl "remote-debugging-port" := by
      rw [flagValue_append]
      cases flagValue fl "remote-debugging-port" <;> simp [flagValue, mandatoryFlags]
    simp only [Chromium.Start, Chromium.Flag, hm, hud2, startAfterData_cmd]
    simp [ha2, hp2, startDefaults, hud2, List.append_assoc]

/-- Witness for the amended C4 at a concrete caller flag list. -/
theorem mandatory_flags_after_caller_witness :
    ∃ a, (Chromium.Start
            (⟨"google-chrome", [⟨"disable-extensions", .bool true⟩], "", none⟩ : Chromium)
            ⟨.ok "/tmp/chromium-1", .ok (), .ok (), .ok (), []⟩).state.cmd
        = some ⟨a, true⟩
      ∧ a = (([⟨"disable-extensions", .bool true⟩] : List Flag) ++ mandatoryFlags
              ++ startDefaults [⟨"disable-extensions", .bool true⟩] "/tmp/chromium-1").map
            Flag.render :=
  mandatory_flags_after_caller ([⟨"disable-extensions", .bool true⟩] : List Flag)
    "google-chrome" "/tmp/chromium-1" []
    (fun v h => by simp [flagValue] at h)

/-- Counterexample to claim C5: start, stop, start again on a record whose
caller supplied no `user-data-dir`. The stop clears the handle and data
fields as claimed, but the second `Start` does NOT allocate the fresh
directory its environment offers: the `user-data-dir` flag the first
`Start` appended to the record's flag list survives the stop, so the
second `Start` adopts the previous (already removed) path. -/
theorem data_dir_reuse_counterexample :
    ((Chromium.Stop (Chromium.Start freshChromium
        (okEnv "/tmp/chromium-1" [.fs "DevToolsActivePort" (.ok "9222")])).state
        (.ok ())).state.cmd = none)
  ∧ ((Chromium.Stop (Chromium.Start freshChromium
        (okEnv "/tmp/chromium-1" [.fs "DevToolsActivePort" (.ok "9222")])).state
        (.ok ())).state.data = "")
  ∧ ((Chromium.Start (Chromium.Stop (Chromium.Start freshChromium
        (okEnv "/tmp/chromium-1" [.fs "DevToolsActivePort" (.ok "9222")])).state
        (.ok ())).state
        (okEnv "/tmp/chromium-2" [.fs "DevToolsActivePort" (.ok "9222")])).state.data
      = "/tmp/chromium-1")
  ∧ ((Chromium.Start (Chromium.Stop (Chromium.Start freshChromium
        (okEnv "/tmp/chromium-1" [.fs "DevToolsActivePort" (.ok "9222")])).state
        (.ok ())).state
        (okEnv "/tmp/chromium-2" [.fs "DevToolsActivePort" (.ok "9222")])).state.data
      ≠ "/tmp/chromium-2") := by
  exact ⟨rfl, rfl, rfl, by decide⟩

/-- Claim C5 as amended: after a successful `Start` (no caller-supplied
`user-data-dir`, temp directory `d1`) followed by `Stop`, the handle and
data fields are cleared; but a subsequent `Start` offered a fresh temp
directory `d2` reuses the previous (removed) path `d1`, which the first
`Start` persisted into the record's flag list. -/
theorem data_dir_reused_after_stop (d1 d2 : String) :
    ((Chromium.Stop (Chromium.Start freshChromium
        (okEnv d1 [.fs "DevToolsActivePort" (.ok "9222")])).state
        (.ok ())).state.cmd = none)
  ∧ ((Chromium.Stop (Chromium.Start freshChromium
        (okEnv d1 [.fs "DevToolsActivePort" (.ok "9222")])).state
        (.ok ())).state.data = "")
  ∧ ((Chromium.Start (Chromium.Stop (Chromium.Start freshChromium
        (okEnv d1 [.fs "DevToolsActivePort" (.ok "9222")])).state
        (.ok ())).state
        (okEnv d2 [.fs "DevToolsActivePort" (.ok "9222")])).state.data
      = d1) := by
  exact ⟨rfl, rfl, rfl⟩

/-- Claim C6: on any record holding a command handle, `Stop` runs `Cleanup`
unconditionally — the data directory is removed exactly when non-empty and
the handle and data fields are cleared — whether or not the kill fails, and
a kill failure is the error `Stop` returns. -/
theorem stop_cleanup_unconditional (c : Chromium) (cm : Cmd)
    (kill : Except String Unit) (h : c.cmd = some cm) :
    (Chromium.Stop c kill).state.cmd = none
  ∧ (Chromium.Stop c kill).state.data = ""
  ∧ (Chromium.Stop c kill).removedDir = (if c.data = "" then none else some c.data)
  ∧ (Chromium.Stop c kill).err
      = (match kill with | .error e => some (.killFail e) | .ok _ => none) := by
  unfold Chromium.Stop
  rw [h]
  cases kill <;> simp [Chromium.Cleanup]

/-- Witness for C6 on a running record whose kill fails. -/
theorem stop_cleanup_unconditional_witness :
    (Chromium.Stop ⟨"google-chrome", [], "/tmp/chromium-1", some ⟨[], true⟩⟩
        (.error "kill failed")).state.cmd = none
  ∧ (Chromium.Stop ⟨"google-chrome", [], "/tmp/chromium-1", some ⟨[], true⟩⟩
        (.error "kill failed")).state.data = ""
  ∧ (Chromium.Stop ⟨"google-chrome", [], "/tmp/chromium-1", some ⟨[], true⟩⟩
        (.error "kill failed")).removedDir = some "/tmp/chromium-1"
  ∧ (Chromium.Stop ⟨"google-chrome", [], "/tmp/chromium-1", some ⟨[], true⟩⟩
        (.error "kill failed")).err = some (.killFail "kill failed") := by
  have h := stop_cleanup_unconditional
    ⟨"google-chrome", [], "/tmp/chromium-1", some ⟨[], true⟩⟩
    ⟨[], true⟩ (.error "kill failed") rfl
  exact ⟨h.1, h.2.1, h.2.2.1.trans (by decide), h.2.2.2.trans (by decide)⟩

/-- Claim C7: state errors have no side effects. `Start` on a record with a
handle returns `ErrProcessRunning` with the record exactly unchanged (the
record of `chromium.go` stores no port field to change — the port is
returned, never recorded); `Stop` and `Wait` with no handle return
`ErrProcessNotRunning`, change no field, and remove no directory. -/
theorem state_errors_no_side_effects (c c2 : Chromium) (cm : Cmd)
    (env : StartEnv) (kill w : Except String Unit)
    (h : c.cmd = some cm) (h2 : c2.cmd = none) :
    Chromium.Start c env = ⟨.fail .processRunning, c, false⟩
  ∧ Chromium.Stop c2 kill = ⟨some .processNotRunning, c2, none⟩
  ∧ Chromium.Wait c2 w = ⟨some .processNotRunning, c2, none⟩ := by
  refine ⟨?_, ?_, ?_⟩
  · unfold Chromium.Start
    rw [h]
  · unfold Chromium.Stop
    rw [h2]
  · unfold Chromium.Wait
    rw [h2]

/-- Witness for C7 on concrete records. -/
theorem state_errors_no_side_effects_witness :
    Chromium.Start ⟨"google-chrome", [], "/tmp/chromium-1", some ⟨[], true⟩⟩
        (okEnv "/tmp/x" [])
      = ⟨.fail .processRunning,
         ⟨"google-chrome", [], "/tmp/chromium-1", some ⟨[], true⟩⟩, false⟩
  ∧ Chromium.Stop freshChromium (.ok ())
      = ⟨some .processNotRunning, freshChromium, none⟩
  ∧ Chromium.Wait freshChromium (.ok ())
      = ⟨some .processNotRunning, freshChromium, none⟩ :=
  state_errors_no_side_effects _ _ ⟨[], true⟩ _ _ _ rfl rfl

end chromium
